import Mathlib

/-!
Shallow embedding of the container-image build orchestration core of the
repository (package `docker_cli`, with its later snapshot `wigwam`).

The embedded code lives in:
* `docker_cli/defaults.py` — the reserved tag namespace string;
* `docker_cli/_image.py` — `Image.build`, `Image.run`, `Image.has_command`;
* `docker_cli/_package_manager.py` and `docker_cli/_url_reader.py` — the two
  capability enums and their command generators;
* `docker_cli/_utils.py` — `temp_image`, `image_command_check`,
  `_package_manager_check`, `_url_reader_check`, `_get_reader_install_lines`,
  `parse_cuda_info`;
* `docker_cli/setup_commands.py` — `setup_init`, `setup_cuda_runtime`,
  `setup_cuda_dev`, `setup_conda_runtime`, `setup_conda_dev`, `setup_all`;
* `docker_cli/commands.py` — `remove` (the namespace garbage collector).

Python exceptions are modelled by the sum type `PyErr` and fallible code
returns `Except PyErr`.  A container image is modelled by the exit codes the
engine would report for shell commands run inside it (`Img`).  The external
engine build command is modelled by a `String → String → Bool` oracle (tag and
Dockerfile text to success), and functions that spawn `docker build`
subprocesses additionally return the list of tags passed to those subprocess
invocations, in launch order.  Dockerfile *bodies* coming from the generator
strategies (`_docker_cuda.py`, `_docker_mamba.py`) are out of scope for the
orchestration properties proved here, so the pipeline definitions are
parameterized over them; every theorem quantifies over all such bodies.
-/

namespace Wigwam

/-- `universal_tag_prefix()` from `docker_cli/defaults.py`: the reserved
namespace string for tags generated by the system. -/
def universalTagPrefix : String := "dcli"

/-- Model of Python `str.startswith`: a Boolean test that the character data
of the second string is a head of the first string's character data. -/
def startswith (s pre : String) : Bool := pre.data.isPrefixOf s.data

/-- The tag auto-prefix rule, `tag if tag.startswith(prefix) else
f"..."` with the universal tag string, as written identically in
`setup_commands.py` (`setup_init` and the other `setup_*` commands) and
`commands.py`. -/
def prefixTag (tag : String) : String :=
  if startswith tag universalTagPrefix then tag else universalTagPrefix ++ "-" ++ tag

/-- The two supported package managers (`AptGet`, `Yum` classes in
`_package_manager.py`). -/
inductive PackageManager
  | aptGet
  | yum
deriving DecidableEq, Repr

/-- `PackageManager.name` properties from `_package_manager.py`. -/
def PackageManager.name : PackageManager → String
  | .aptGet => "apt-get"
  | .yum => "yum"

/-- `generate_install_command` of the `Yum` and `AptGet` classes: a space
join of the listed words. -/
def generateInstallCommand : PackageManager → List String → Bool → String
  | .yum, targets, clean =>
      String.intercalate " " (["yum", "install", "-y"] ++ targets ++
        (if clean then ["&&", "yum", "clean", "all", "&&", "rm", "-rf", "/var/cache/yum"]
         else []))
  | .aptGet, targets, clean =>
      String.intercalate " "
        (["apt-get", "-y", "update", "&&", "apt-get", "-y", "install"] ++ targets ++
        (if clean then ["&&", "apt-get", "clean", "all"] else []))

/-- `generate_configure_command` of the `Yum` and `AptGet` classes.  The yum
text is the `textwrap.dedent(...).strip()` result from the source. -/
def generateConfigureCommand : PackageManager → String
  | .yum =>
      "yum update -y                                                       \\\n  && echo \x27skip_missing_names_on_install=False\x27 >> /etc/yum.conf    \\\n  && rm -rf /var/cache/yum"
  | .aptGet => "apt-get -y update && apt-get clean all"

/-- The two supported URL readers (`Curl`, `Wget` classes in
`_url_reader.py`). -/
inductive URLReader
  | curl
  | wget
deriving DecidableEq, Repr

/-- The Python exceptions raised by the embedded code. -/
inductive PyErr
  | calledProcessError (returncode : Nat)
  | commandNotFoundError (commandName : String)
  | valueError (message : String)
  | dockerBuildError (message : String)
  | imageNotFoundError (tagOrId : String)
deriving DecidableEq, Repr

instance {ε α : Type} [DecidableEq ε] [DecidableEq α] : DecidableEq (Except ε α) :=
  fun x y =>
    match x, y with
    | .ok a, .ok b =>
      if h : a = b then isTrue (by rw [h])
      else isFalse (fun hc => h (Except.ok.inj hc))
    | .error e, .error f =>
      if h : e = f then isTrue (by rw [h])
      else isFalse (fun hc => h (Except.error.inj hc))
    | .ok _, .error _ => isFalse (fun hc => Except.noConfusion hc)
    | .error _, .ok _ => isFalse (fun hc => Except.noConfusion hc)

/-- `get_package_manager` from `_package_manager.py`. -/
def getPackageManager (name : String) : Except PyErr PackageManager :=
  if name = "apt-get" then .ok .aptGet
  else if name = "yum" then .ok .yum
  else .error (.valueError ("Package manager \x27" ++ name ++ "\x27 not recognized!"))

/-- `get_supported_package_managers` from `_package_manager.py`: the probing
priority order. -/
def getSupportedPackageManagers : List String := ["yum", "apt-get"]

/-- `get_url_reader` from `_url_reader.py`. -/
def getUrlReader (name : String) : Except PyErr URLReader :=
  if name = "curl" then .ok .curl
  else if name = "wget" then .ok .wget
  else .error (.valueError ("URL Reader " ++ name ++ " not recognized!"))

/-- `get_supported_url_readers` from `_url_reader.py`. -/
def getSupportedUrlReaders : List String := ["curl", "wget"]

/-- A container image, modelled by the exit code the engine reports for each
shell command executed in a container derived from the image. -/
structure Img where
  exitCode : String → Nat

/-- `shlex.split(command)[0]` as used by `Image.run` on its 127 path: the
first whitespace-delimited token of the command string. -/
def shlexHead (s : String) : String :=
  String.mk (s.data.takeWhile (fun ch => !(ch == ' ')))

/-- `Image.run(command, check=True)` from `_image.py`: exit 0 succeeds, exit
127 is mapped to `CommandNotFoundError` naming the command's first token, and
any other non-zero exit raises `CalledProcessError`. -/
def Img.runCheck (i : Img) (command : String) : Except PyErr Unit :=
  let rc := i.exitCode command
  if rc = 0 then .ok ()
  else if rc = 127 then .error (.commandNotFoundError (shlexHead command))
  else .error (.calledProcessError rc)

/-- `Image.has_command` from `_image.py`: runs `command -v name`; a
`CalledProcessError` with return code 1 means `False`, any other
`CalledProcessError` is re-raised, and the `CommandNotFoundError` produced by
`Image.run` on exit 127 propagates uncaught. -/
def Img.hasCommand (i : Img) (command : String) : Except PyErr Bool :=
  match i.runCheck ("command -v " ++ command) with
  | .ok _ => .ok true
  | .error e => if e = .calledProcessError 1 then .ok false else .error e

/-- The loop body of `_package_manager_check` from `_utils.py`. -/
def packageManagerCheckAux (i : Img) : List String → Except PyErr PackageManager
  | [] => .error (.valueError "No recognized package manager found on parent image.")
  | n :: rest =>
    match i.hasCommand n with
    | .error e => .error e
    | .ok true => getPackageManager n
    | .ok false => packageManagerCheckAux i rest

/-- `_package_manager_check` from `_utils.py`: return the first supported
package manager present on the image, else raise `ValueError`. -/
def packageManagerCheck (i : Img) : Except PyErr PackageManager :=
  packageManagerCheckAux i getSupportedPackageManagers

/-- The loop body of `_url_reader_check` from `_utils.py`. -/
def urlReaderCheckAux (i : Img) : List String → Except PyErr (Option URLReader)
  | [] => .ok none
  | n :: rest =>
    match i.hasCommand n with
    | .error e => .error e
    | .ok true => (getUrlReader n).map some
    | .ok false => urlReaderCheckAux i rest

/-- `_url_reader_check` from `_utils.py`: the first supported URL reader
present on the image, or `none`. -/
def urlReaderCheck (i : Img) : Except PyErr (Option URLReader) :=
  urlReaderCheckAux i getSupportedUrlReaders

/-- `_get_reader_install_lines` from `_utils.py`: the wget reader together
with a Dockerfile line installing wget through the package manager. -/
def getReaderInstallLines (pm : PackageManager) : URLReader × String :=
  (URLReader.wget, "RUN " ++ generateInstallCommand pm ["wget"] true ++ "\n")

/-- `image_command_check` from `_utils.py`: detect the package manager and the
URL reader, synthesizing configuration and install lines as needed. -/
def imageCommandCheck (i : Img) (configure : Bool) :
    Except PyErr (PackageManager × URLReader × String) :=
  match packageManagerCheck i with
  | .error e => .error e
  | .ok pm =>
    let initLines := if configure then "RUN " ++ generateConfigureCommand pm ++ "\n" else ""
    match urlReaderCheck i with
    | .error e => .error e
    | .ok urlOpt =>
      let chosen : URLReader × String :=
        match urlOpt with
        | some u => (u, initLines)
        | none =>
          let p := getReaderInstallLines pm
          (p.1, initLines ++ p.2)
      match i.hasCommand "tar" with
      | .error e => .error e
      | .ok tarPresent =>
        let lines :=
          if tarPresent then chosen.2
          else chosen.2 ++ ("RUN " ++ generateInstallCommand pm ["tar"] true)
        .ok (pm, chosen.1, lines)

/-- Split a character list at every dot, keeping empty chunks (the splitting
behaviour of the version pattern below). -/
def splitOnDot : List Char → List (List Char)
  | [] => [[]]
  | c :: rest =>
    let r := splitOnDot rest
    if c == '.' then [] :: r
    else
      match r with
      | [] => [[c]]
      | h :: t => (c :: h) :: t

/-- A decimal digit run read as a number, as Python `int` reads the matched
groups. -/
def digitsToNat (cs : List Char) : Nat :=
  cs.foldl (fun acc c => 10 * acc + (c.toNat - 48)) 0

/-- The Python dollar anchor (no MULTILINE flag) matches at the end of the
string or just before one newline that ends the string, so a pattern anchored
with it also accepts exactly one trailing newline: model this by dropping a
final newline character if present. -/
def stripDollarNewline (cs : List Char) : List Char :=
  match cs.getLast? with
  | some c => if c = '\n' then cs.dropLast else cs
  | none => cs

/-- `parse_cuda_info` from `_utils.py`: the pattern
`^([0-9]+)\.([0-9]+)$` — exactly one dot with a nonempty ASCII digit run on
each side, with the Python dollar anchor also tolerating one trailing
newline — with the two matched groups read as the major and minor version
numbers; anything else is rejected (the caller turns the rejection into
`ValueError` echoing the input). -/
def parseCudaInfo (s : String) : Option (Nat × Nat) :=
  match splitOnDot (stripDollarNewline s.data) with
  | [major, minor] =>
    if !major.isEmpty && major.all Char.isDigit &&
       !minor.isEmpty && minor.all Char.isDigit then
      some (digitsToNat major, digitsToNat minor)
    else none
  | _ => none

/-- The message of the `DockerBuildError` raised by `Image.build` when a
Dockerfile-string build fails (`_image.py`). -/
def buildFailMessage (tag : String) : String :=
  "String Dockerfile " ++ tag ++ " failed to build."

/-- `Image.build(tag, dockerfile_string=...)` from `_image.py`: the engine's
build command either succeeds, returning the image (resolved by its tag), or
exits non-zero, in which case `DockerBuildError` is raised with the message
above — the Dockerfile text is not part of the raised error. -/
def imageBuildFromString (engineOk : Bool) (tag dockerfileString : String) :
    Except PyErr String :=
  if engineOk then .ok tag else .error (.dockerBuildError (buildFailMessage tag))

/-! ### The namespace garbage collector (`remove` in `commands.py`) -/

/-- Wildcard matching used by the engine's `--filter=reference=` query: `*`
matches any character sequence and `?` matches one character, any other
character matches itself.  (The engine's matcher does not let `*` cross a
path separator; that restriction is irrelevant to the namespace property
proved here and is not modelled.) -/
def globMatch : List Char → List Char → Bool
  | [], s => s.isEmpty
  | c :: ps, s =>
    if c == '*' then s.tails.any (fun suffix => globMatch ps suffix)
    else
      match s with
      | [] => false
      | r :: s₂ => (c == '?' || c == r) && globMatch ps s₂

/-- An image known to the engine, as `remove` sees it: an identifier (what
`docker images -q` prints) and the reference the `--filter` matches. -/
structure DockerImage where
  id : String
  ref : String
deriving DecidableEq, Repr

/-- The `search` pattern computed for one tag by `remove` in `commands.py`:
`tag if (tag.startswith(...) or ignore_prefix) else` the tag with the
universal namespace string prepended. -/
def removeSearch (ignoreNamespace : Bool) (tag : String) : String :=
  if startswith tag universalTagPrefix || ignoreNamespace then tag
  else universalTagPrefix ++ "-" ++ tag

/-- The images the engine reports for `docker images --filter=reference=`
with one search pattern. -/
def filterReference (store : List DockerImage) (pattern : String) : List DockerImage :=
  store.filter (fun img => globMatch pattern.data img.ref.data)

/-- All images whose identifiers the `remove` loop passes to `docker rmi`
across its patterns (patterns with no match are skipped and contribute
nothing). -/
def removedImages (store : List DockerImage) (tags : List String)
    (ignoreNamespace : Bool) : List DockerImage :=
  tags.flatMap (fun tag => filterReference store (removeSearch ignoreNamespace tag))

/-! ### The throwaway probe image (`temp_image` in `_utils.py`) -/

/-- The engine's local image store, as a list of tags. -/
abbrev Store := List String

/-- `docker rmi tag` as run by the `finally` block of `temp_image`. -/
def rmi (s : Store) (tag : String) : Store := s.filter (fun t => t != tag)

/-- `temp_image` from `_utils.py`, as a state transformer on the image store.
The temporary tag is the universal namespace string, `-temp-`, and the random
suffix.  If building `FROM base` fails, `ValueError` is raised and no image
was created; otherwise the body runs with the temporary image in the store
and `docker rmi` on the temporary tag runs unconditionally afterwards (the
`finally` block), whether the body returned or raised. -/
def tempImage {α : Type} (buildOk : Bool) (base rand : String)
    (body : String → Store → Except PyErr α × Store) (s : Store) :
    Except PyErr α × Store :=
  let tag := universalTagPrefix ++ "-temp-" ++ rand
  if buildOk then
    let r := body tag (tag :: s)
    (r.1, rmi r.2 tag)
  else
    (.error (.valueError ("Image not found: " ++ base)), s)

/-! ### The stage pipeline (`setup_commands.py`)

Each builder below returns the stage's result together with the list of tags
passed to `docker build` subprocess invocations, in launch order.  `eng` is
the engine's build command: it receives the tag and the Dockerfile text and
reports success or failure.  The strategy bodies produced by
`_docker_cuda.py` and `_docker_mamba.py` are parameters. -/

/-- `Image.build` as invoked by the `setup_*` commands: launch the build
subprocess (recording the tag), then either return the image together with
the Dockerfile it was built from, or raise `DockerBuildError`. -/
def buildImage (eng : String → String → Bool) (tag dockerfile : String) :
    Except PyErr (String × String) × List String :=
  if eng tag dockerfile then (.ok (tag, dockerfile), [tag])
  else (.error (.dockerBuildError (buildFailMessage tag)), [tag])

/-- The `with temp_image(base) as temp_img:` pattern of the `setup_*`
commands, at the level of build subprocess traces: build the throwaway image
`FROM base` (one subprocess), then run the probing body against the base
image's capabilities.  The throwaway image's removal does not launch a build
subprocess and its store effect is covered by `tempImage` above. -/
def tempProbe {α : Type} (eng : String → String → Bool) (probeImg : Img)
    (rand base : String) (body : Img → Except PyErr α) :
    Except PyErr α × List String :=
  let tag := universalTagPrefix ++ "-temp-" ++ rand
  if eng tag ("FROM " ++ base) then (body probeImg, [tag])
  else (.error (.valueError ("Image not found: " ++ base)), [tag])

/-- The constant user/group bootstrap block appended by `setup_init`
(`textwrap.dedent(...).strip()` of the source's literal). -/
def setupInitBlock : String :=
  "ENV DEFAULT_GROUP defaultgroup\nENV DEFAULT_USER defaultuser\nENV DEFAULT_GID 1000\nENV DEFAULT_UID 1000\n\nRUN groupadd -g $DEFAULT_GID $DEFAULT_GROUP\nRUN useradd -g $DEFAULT_GID -u $DEFAULT_UID -m $DEFAULT_USER\n\nRUN chmod -R 777 /tmp"

/-- `setup_init` from `setup_commands.py`. -/
def setupInit (eng : String → String → Bool) (probeImg : Img)
    (rand base tag : String) (noCache : Bool) :
    Except PyErr ((String × String) × PackageManager × URLReader) × List String :=
  match tempProbe eng probeImg rand base (fun t => imageCommandCheck t true) with
  | (.error e, tr) => (.error e, tr)
  | (.ok (pm, url, ick), tr) =>
    let dockerfile := "FROM " ++ base ++ "\n\n" ++ ick ++ "\n" ++ setupInitBlock
    let imgTag := prefixTag tag
    match buildImage eng imgTag dockerfile with
    | (.ok img, tr₂) => (.ok (img, pm, url), tr ++ tr₂)
    | (.error e, tr₂) => (.error e, tr ++ tr₂)

/-- `setup_cuda_runtime` from `setup_commands.py`.  When both the package
manager and the URL reader are supplied, no probing happens; when neither is
supplied, a throwaway image is built and probed (one build subprocess)
*before* `parse_cuda_info` validates the version string; a mixed call raises
`ValueError`. -/
def setupCudaRuntime (eng : String → String → Bool) (probeImg : Img)
    (cudaRunBody : PackageManager → URLReader → Nat → Nat → String → String → String)
    (rand base tag : String) (noCache : Bool) (cudaVersion cudaRepo : String)
    (pmOpt : Option PackageManager) (urlOpt : Option URLReader) (arch : String) :
    Except PyErr (String × String) × List String :=
  let caps : Except PyErr (PackageManager × URLReader × String) × List String :=
    match pmOpt, urlOpt with
    | some pm, some url => (.ok (pm, url, ""), [])
    | none, none => tempProbe eng probeImg rand base (fun t => imageCommandCheck t false)
    | _, _ =>
      (.error (.valueError
        "Either both package_manager and url_reader must both be defined, or neither."),
       [])
  match caps with
  | (.error e, tr) => (.error e, tr)
  | (.ok (pm, url, initLines), tr) =>
    match parseCudaInfo cudaVersion with
    | none => (.error (.valueError ("Malformed CUDA version: " ++ cudaVersion)), tr)
    | some (cudaMajor, cudaMinor) =>
      let body := cudaRunBody pm url cudaMajor cudaMinor cudaRepo arch
      let dockerfile := "FROM " ++ base ++ "\n\n" ++ initLines ++ "\n\n" ++ body
      let imgTag := prefixTag tag
      match buildImage eng imgTag dockerfile with
      | (r, tr₂) => (r, tr ++ tr₂)

/-- `setup_cuda_dev` from `setup_commands.py`.  Unlike `setup_cuda_runtime`,
its `with temp_image(base)` block wraps the whole capability resolution, so
the throwaway image is built (one build subprocess) on *every* call, before
`parse_cuda_info` validates the version string. -/
def setupCudaDev (eng : String → String → Bool) (probeImg : Img)
    (cudaDevBody : PackageManager → URLReader → Nat → Nat → String)
    (rand base tag : String) (noCache : Bool) (cudaVersion : String)
    (pmOpt : Option PackageManager) (urlOpt : Option URLReader) :
    Except PyErr (String × String) × List String :=
  let tmpTag := universalTagPrefix ++ "-temp-" ++ rand
  if eng tmpTag ("FROM " ++ base) then
    let caps : Except PyErr (PackageManager × URLReader × String) :=
      match pmOpt, urlOpt with
      | some pm, some url => .ok (pm, url, "")
      | none, none => imageCommandCheck probeImg false
      | _, _ =>
        .error (.valueError
          "Either both package_manager and url_reader must both be defined or neither.")
    match caps with
    | .error e => (.error e, [tmpTag])
    | .ok (pm, url, initLines) =>
      match parseCudaInfo cudaVersion with
      | none => (.error (.valueError ("Malformed CUDA version: " ++ cudaVersion)), [tmpTag])
      | some (cudaMajor, cudaMinor) =>
        let body := cudaDevBody pm url cudaMajor cudaMinor
        let dockerfile := "FROM " ++ base ++ "\n\n" ++ initLines ++ "\n\n" ++ body
        let imgTag := prefixTag tag
        match buildImage eng imgTag dockerfile with
        | (r, tr₂) => (r, tmpTag :: tr₂)
  else (.error (.valueError ("Image not found: " ++ base)), [tmpTag])

/-- `_mamba_install_prefix()` from `_docker_mamba.py`: the multi-stage header
line placed before the `FROM` of the conda runtime stage. -/
def mambaInstallStageHeader : String := "FROM mambaorg/micromamba:1.3.1 as micromamba"

/-- `setup_conda_runtime` from `setup_commands.py`; `mambaRunBody` stands for
`_mamba_install_body` applied to the environment file. -/
def setupCondaRuntime (eng : String → String → Bool) (mambaRunBody : String)
    (base tag : String) (noCache : Bool) :
    Except PyErr (String × String) × List String :=
  let dockerfile := mambaInstallStageHeader ++ "\n\nFROM " ++ base ++ "\n\n" ++ mambaRunBody
  buildImage eng (prefixTag tag) dockerfile

/-- `setup_conda_dev` from `setup_commands.py`; `mambaDevBody` stands for
`mamba_add_reqs_dockerfile` applied to the environment file. -/
def setupCondaDev (eng : String → String → Bool) (mambaDevBody : String)
    (base tag : String) (noCache : Bool) :
    Except PyErr (String × String) × List String :=
  let dockerfile := "FROM " ++ base ++ "\n\n" ++ mambaDevBody
  buildImage eng (prefixTag tag) dockerfile

/-- `setup_all` from `setup_commands.py`: validate the CUDA version, then
build the five stages in order, threading each stage's tag into the next
stage's `base`, and return the tag-indexed mapping of built images in
insertion order (each image paired with the Dockerfile it was built from).
`rand₁`/`rand₂`/`rand₃` are the random suffixes the three `temp_image`
context managers would draw. -/
def setupAll (eng : String → String → Bool) (probeImg : Img)
    (cudaRunBody : PackageManager → URLReader → Nat → Nat → String → String → String)
    (cudaDevBody : PackageManager → URLReader → Nat → Nat → String)
    (mambaRunBody mambaDevBody : String)
    (rand₁ rand₂ rand₃ base tag : String) (noCache : Bool)
    (cudaVersion cudaRepo : String) :
    Except PyErr (List (String × String)) × List String :=
  match parseCudaInfo cudaVersion with
  | none => (.error (.valueError ("Malformed CUDA version: " ++ cudaVersion)), [])
  | some (cudaMajor, cudaMinor) =>
    let baseImageTag := universalTagPrefix ++ "-" ++ tag ++ "-init"
    match setupInit eng probeImg rand₁ base baseImageTag noCache with
    | (.error e, tr₁) => (.error e, tr₁)
    | (.ok (initImg, pm, url), tr₁) =>
      let cudaRunTag := universalTagPrefix ++ "-" ++ tag ++ "-cuda-" ++
        toString cudaMajor ++ "-" ++ toString cudaMinor ++ "-runtime"
      match setupCudaRuntime eng probeImg cudaRunBody rand₂ baseImageTag cudaRunTag
          noCache cudaVersion cudaRepo (some pm) (some url) "x86_64" with
      | (.error e, tr₂) => (.error e, tr₁ ++ tr₂)
      | (.ok cudaRunImg, tr₂) =>
        let mambaRunTag := universalTagPrefix ++ "-" ++ tag ++ "-mamba-runtime"
        match setupCondaRuntime eng mambaRunBody cudaRunTag mambaRunTag noCache with
        | (.error e, tr₃) => (.error e, tr₁ ++ tr₂ ++ tr₃)
        | (.ok mambaRunImg, tr₃) =>
          let cudaDevTag := universalTagPrefix ++ "-" ++ tag ++ "-cuda-" ++
            toString cudaMajor ++ "-" ++ toString cudaMinor ++ "-dev"
          match setupCudaDev eng probeImg cudaDevBody rand₃ mambaRunTag cudaDevTag
              noCache cudaVersion (some pm) (some url) with
          | (.error e, tr₄) => (.error e, tr₁ ++ tr₂ ++ tr₃ ++ tr₄)
          | (.ok cudaDevImg, tr₄) =>
            let mambaDevTag := universalTagPrefix ++ "-" ++ tag ++ "-mamba-dev"
            match setupCondaDev eng mambaDevBody cudaDevTag mambaDevTag noCache with
            | (.error e, tr₅) => (.error e, tr₁ ++ tr₂ ++ tr₃ ++ tr₄ ++ tr₅)
            | (.ok mambaDevImg, tr₅) =>
              (.ok [(baseImageTag, initImg.2), (cudaRunTag, cudaRunImg.2),
                    (mambaRunTag, mambaRunImg.2), (cudaDevTag, cudaDevImg.2),
                    (mambaDevTag, mambaDevImg.2)],
               tr₁ ++ tr₂ ++ tr₃ ++ tr₄ ++ tr₅)

/-! ### Concrete fixtures used in witnesses and counterexamples -/

/-- An image on which every probe command exits 127 (the shell itself cannot
find the probe command). -/
def imgAll127 : Img := ⟨fun _ => 127⟩

/-- An image on which every probe command exits 1: no command is present. -/
def imgNone : Img := ⟨fun _ => 1⟩

/-- An image on which every probe command exits 0: everything is present. -/
def imgAll : Img := ⟨fun _ => 0⟩

/-- An image with yum and nothing else. -/
def imgYum : Img := ⟨fun s => if s = "command -v yum" then 0 else 1⟩

/-- An image with apt-get and tar but no yum and no URL reader. -/
def imgApt : Img :=
  ⟨fun s =>
    if s = "command -v apt-get" then 0 else if s = "command -v tar" then 0 else 1⟩

/-- An image with apt-get, wget and tar: the end-to-end scenario's base. -/
def imgAptWget : Img :=
  ⟨fun s =>
    if s = "command -v apt-get" then 0
    else if s = "command -v wget" then 0
    else if s = "command -v tar" then 0
    else 1⟩

/-- A build engine that accepts every build. -/
def engTrue : String → String → Bool := fun _ _ => true

/-- A fixed CUDA runtime strategy body for concrete evaluations. -/
def cudaRunBody₀ : PackageManager → URLReader → Nat → Nat → String → String → String :=
  fun _ _ _ _ _ _ => "RUN install-cuda-runtime"

/-- A fixed CUDA dev strategy body for concrete evaluations. -/
def cudaDevBody₀ : PackageManager → URLReader → Nat → Nat → String :=
  fun _ _ _ _ => "RUN install-cuda-dev"

/-! ## Helper lemmas -/

/-- `startswith` is the list prefix relation on character data. -/
theorem startswith_iff (s t : String) : startswith s t = true ↔ t.data <+: s.data := by
  simp [startswith, List.isPrefixOf_iff_prefix]

/-- Every string starts with itself. -/
theorem startswith_self (s : String) : startswith s s = true := by
  rw [startswith_iff]

/-- Appending on the right preserves `startswith`. -/
theorem startswith_append_left (s t u : String) (h : startswith s u = true) :
    startswith (s ++ t) u = true := by
  rw [startswith_iff] at h ⊢
  rw [String.data_append]
  exact h.trans (List.prefix_append _ _)

/-- A tag of the shape produced by the namespace rule starts with the
universal namespace string. -/
theorem startswith_dcli_dash (t : String) :
    startswith (universalTagPrefix ++ "-" ++ t) universalTagPrefix = true :=
  startswith_append_left _ _ _ (startswith_append_left _ _ _ (startswith_self _))

/-- The auto-prefix rule leaves a string alone iff it already starts with the
universal namespace string. -/
theorem prefixTag_of_startswith (s : String)
    (h : startswith s universalTagPrefix = true) : prefixTag s = s := by
  simp [prefixTag, h]

/-- The output of the auto-prefix rule always starts with the universal
namespace string. -/
theorem startswith_prefixTag (tag : String) :
    startswith (prefixTag tag) universalTagPrefix = true := by
  rw [prefixTag]
  by_cases h : startswith tag universalTagPrefix = true
  · simp [h]
  · simp only [h]
    simpa using startswith_dcli_dash tag

/-- Every search pattern computed by `remove` without `ignore_prefix` starts
with the universal namespace string. -/
theorem removeSearch_startswith (t : String) :
    startswith (removeSearch false t) universalTagPrefix = true := by
  rw [removeSearch]
  by_cases h : startswith t universalTagPrefix = true
  · simp [h]
  · simp only [h]
    simpa using startswith_dcli_dash t

/-- A non-wildcard character at the head of a glob pattern must literally
head the matched string. -/
theorem globMatch_literal_cons (c : Char) (ps rs : List Char)
    (hc₁ : (c == '*') = false) (hc₂ : (c == '?') = false)
    (h : globMatch (c :: ps) rs = true) :
    ∃ rs₂, rs = c :: rs₂ ∧ globMatch ps rs₂ = true := by
  cases rs with
  | nil => simp [globMatch, hc₁] at h
  | cons r rs₂ =>
    simp [globMatch, hc₁, hc₂] at h
    exact ⟨rs₂, by rw [h.1], h.2⟩

/-- A glob pattern that starts with a literal word only matches strings that
start with the same word. -/
theorem globMatch_literal_head (lit ps rs : List Char)
    (hlit : ∀ c ∈ lit, (c == '*') = false ∧ (c == '?') = false)
    (h : globMatch (lit ++ ps) rs = true) :
    ∃ rs₂, rs = lit ++ rs₂ ∧ globMatch ps rs₂ = true := by
  induction lit generalizing rs with
  | nil => exact ⟨rs, rfl, h⟩
  | cons c lit ih =>
    have hc := hlit c (List.mem_cons_self c lit)
    obtain ⟨rs₂, hrs, hm⟩ :=
      globMatch_literal_cons c (lit ++ ps) rs hc.1 hc.2 h
    obtain ⟨rs₃, hrs₃, hm₃⟩ :=
      ih rs₂ (fun d hd => hlit d (List.mem_cons_of_mem c hd)) hm
    exact ⟨rs₃, by rw [hrs, hrs₃]; rfl, hm₃⟩

/-- A glob pattern that starts with the universal namespace string only
matches references that start with it too. -/
theorem globMatch_namespace (pat r : String)
    (hpat : startswith pat universalTagPrefix = true)
    (h : globMatch pat.data r.data = true) :
    startswith r universalTagPrefix = true := by
  rw [startswith_iff] at hpat ⊢
  obtain ⟨tail, htail⟩ := hpat
  rw [← htail] at h
  obtain ⟨rs₂, hrs, -⟩ :=
    globMatch_literal_head universalTagPrefix.data tail r.data (by decide) h
  exact ⟨rs₂, hrs.symm⟩

/-! ## Claim theorems -/

/-- Claim C10 (confirmed): the tag auto-prefix operation is idempotent —
applying it to a tag that already carries the reserved namespace string
returns the tag unchanged, so applying it twice never double-prefixes; in
particular the already-prefixed "dcli-foo" is left alone. -/
theorem c10_prefix_idempotent :
    (∀ tag : String, prefixTag (prefixTag tag) = prefixTag tag) ∧
    prefixTag "dcli-foo" = "dcli-foo" := by
  refine ⟨fun tag => prefixTag_of_startswith _ (startswith_prefixTag tag), rfl⟩

/-- Claim C1 counterexample: at a concrete tag and Dockerfile text, the error
raised by a failed Dockerfile-string build is `DockerBuildError` with a
message that names the tag only — the Dockerfile text being built does not
occur in the raised error. -/
theorem c1_counterexample :
    imageBuildFromString false "demo" "FROM ubuntu\nRUN make" =
      Except.error (PyErr.dockerBuildError "String Dockerfile demo failed to build.") ∧
    ¬ ("FROM ubuntu\nRUN make").data <:+:
      ("String Dockerfile demo failed to build.").data :=
  ⟨rfl, by decide⟩

/-- Claim C1 (corrected): when a Dockerfile-string build fails, `Image.build`
raises `DockerBuildError` whose payload message carries the tag, and the
payload is identical whatever Dockerfile text was being built, so the
complete generated Dockerfile text is not part of the raised error. -/
theorem c1_build_failure_payload (tag d d₂ : String) :
    imageBuildFromString false tag d =
      Except.error (PyErr.dockerBuildError (buildFailMessage tag)) ∧
    tag.data <:+: (buildFailMessage tag).data ∧
    imageBuildFromString false tag d = imageBuildFromString false tag d₂ := by
  refine ⟨rfl, ?_, rfl⟩
  refine ⟨("String Dockerfile ").data, (" failed to build.").data, ?_⟩
  simp [buildFailMessage, String.data_append]

/-- Claim C4 counterexample: when the probe command exits 127, `has_command`
raises the `CommandNotFoundError` minted by `Image.run`, not the underlying
process error with return code 127. -/
theorem c4_counterexample :
    Img.hasCommand imgAll127 "foo" =
      Except.error (PyErr.commandNotFoundError "command") ∧
    Img.hasCommand imgAll127 "foo" ≠
      Except.error (PyErr.calledProcessError 127) :=
  ⟨rfl, by decide⟩

/-- Claim C4 (corrected): `has_command` returns True on probe exit code 0 and
False on exit code 1; exit code 127 raises `CommandNotFoundError` (naming the
probe command's first token) rather than re-raising the underlying process
error; every other non-zero exit code re-raises the underlying
`CalledProcessError`. -/
theorem c4_has_command_exit_codes (i : Img) (c : String) (rc : Nat)
    (hrc : i.exitCode ("command -v " ++ c) = rc) :
    (rc = 0 → i.hasCommand c = Except.ok true) ∧
    (rc = 1 → i.hasCommand c = Except.ok false) ∧
    (rc = 127 → i.hasCommand c =
      Except.error (PyErr.commandNotFoundError "command")) ∧
    (rc ≠ 0 → rc ≠ 1 → rc ≠ 127 →
      i.hasCommand c = Except.error (PyErr.calledProcessError rc)) := by
  have hsh : shlexHead ("command -v " ++ c) = "command" := rfl
  refine ⟨fun h => ?_, fun h => ?_, fun h => ?_, fun h₀ h₁ h₇ => ?_⟩
  · simp [Img.hasCommand, Img.runCheck, hrc, h]
  · simp [Img.hasCommand, Img.runCheck, hrc, h]
  · simp [Img.hasCommand, Img.runCheck, hrc, h, hsh]
  · simp [Img.hasCommand, Img.runCheck, hrc, h₀, h₁, h₇]

/-- Witness for C4: the exit-code cases evaluated at concrete images. -/
theorem c4_witness :
    Img.hasCommand imgAll "ls" = Except.ok true ∧
    Img.hasCommand imgNone "ls" = Except.ok false :=
  ⟨(c4_has_command_exit_codes imgAll "ls" 0 rfl).1 rfl,
   (c4_has_command_exit_codes imgNone "ls" 1 rfl).2.1 rfl⟩

/-- Claim C5 (confirmed): when neither supported package manager is detected
on the image, `_package_manager_check` raises `ValueError` — there is no
fallback default and no capability result. -/
theorem c5_no_package_manager_error (i : Img)
    (hyum : i.hasCommand "yum" = Except.ok false)
    (hapt : i.hasCommand "apt-get" = Except.ok false) :
    packageManagerCheck i =
      Except.error (PyErr.valueError
        "No recognized package manager found on parent image.") := by
  simp [packageManagerCheck, getSupportedPackageManagers, packageManagerCheckAux,
    hyum, hapt]

/-- Witness for C5 at a concrete image with no commands at all. -/
theorem c5_witness :
    Img.hasCommand imgNone "yum" = Except.ok false ∧
    Img.hasCommand imgNone "apt-get" = Except.ok false ∧
    packageManagerCheck imgNone =
      Except.error (PyErr.valueError
        "No recognized package manager found on parent image.") :=
  ⟨rfl, rfl, c5_no_package_manager_error imgNone rfl rfl⟩

/-- Claim C6 counterexample: on an image where both candidates are present
the probe returns yum, not the apt-get that the claimed apt-get-before-yum
priority order would give. -/
theorem c6_counterexample :
    packageManagerCheck imgAll = Except.ok PackageManager.yum ∧
    packageManagerCheck imgAll ≠ Except.ok PackageManager.aptGet :=
  ⟨rfl, by decide⟩

/-- Claim C6 (corrected): the probe checks the candidates in the fixed
priority order yum before apt-get and returns the package manager of the
first candidate present. -/
theorem c6_priority_order (i : Img) :
    (i.hasCommand "yum" = Except.ok true →
      packageManagerCheck i = Except.ok PackageManager.yum) ∧
    (i.hasCommand "yum" = Except.ok false →
      i.hasCommand "apt-get" = Except.ok true →
      packageManagerCheck i = Except.ok PackageManager.aptGet) := by
  constructor
  · intro h
    simp [packageManagerCheck, getSupportedPackageManagers, packageManagerCheckAux,
      h, getPackageManager]
  · intro h₁ h₂
    simp [packageManagerCheck, getSupportedPackageManagers, packageManagerCheckAux,
      h₁, h₂, getPackageManager]

/-- Witness for C6 at single-package-manager images. -/
theorem c6_witness :
    packageManagerCheck imgYum = Except.ok PackageManager.yum ∧
    packageManagerCheck imgApt = Except.ok PackageManager.aptGet :=
  ⟨(c6_priority_order imgYum).1 rfl, (c6_priority_order imgApt).2 rfl rfl⟩

/-- Claim C8 (confirmed): when no URL reader is detected on the image,
`image_command_check` does not fail — it returns the default wget reader
together with an install line built from the detected package manager's
install command for wget. -/
theorem c8_url_reader_fallback (i : Img) (pm : PackageManager) (configure : Bool)
    (hpm : packageManagerCheck i = Except.ok pm)
    (hcurl : i.hasCommand "curl" = Except.ok false)
    (hwget : i.hasCommand "wget" = Except.ok false)
    (htar : i.hasCommand "tar" = Except.ok true) :
    imageCommandCheck i configure =
      Except.ok (pm, URLReader.wget,
        (if configure then "RUN " ++ generateConfigureCommand pm ++ "\n" else "") ++
        ("RUN " ++ generateInstallCommand pm ["wget"] true ++ "\n")) := by
  simp [imageCommandCheck, hpm, urlReaderCheck, getSupportedUrlReaders,
    urlReaderCheckAux, hcurl, hwget, htar, getReaderInstallLines]

/-- Witness for C8 at the concrete apt-get-only image. -/
theorem c8_witness :
    imageCommandCheck imgApt false =
      Except.ok (PackageManager.aptGet, URLReader.wget,
        "RUN apt-get -y update && apt-get -y install wget && apt-get clean all\n") :=
  c8_url_reader_fallback imgApt PackageManager.aptGet false rfl rfl rfl rfl

/-- Claim C7 (confirmed): after `temp_image` returns — by normal exit, by an
exception raised in its body, or because the throwaway build itself failed —
the throwaway tag is absent from the image store (the random suffix makes the
tag fresh, stated here as a hypothesis). -/
theorem c7_temp_image_cleanup {α : Type} (buildOk : Bool) (base rand : String)
    (body : String → Store → Except PyErr α × Store) (s : Store)
    (hfresh : (universalTagPrefix ++ "-temp-" ++ rand) ∉ s) :
    (universalTagPrefix ++ "-temp-" ++ rand) ∉
      (tempImage buildOk base rand body s).2 := by
  unfold tempImage
  by_cases h : buildOk = true
  · simp [h, rmi, List.mem_filter]
  · simp only [Bool.not_eq_true] at h
    simp [h]
    exact hfresh

/-- Witness for C7 at a concrete store and body. -/
theorem c7_witness :
    (universalTagPrefix ++ "-temp-" ++ "abc123") ∉ (["ubuntu"] : Store) ∧
    (universalTagPrefix ++ "-temp-" ++ "abc123") ∉
      (tempImage true "ubuntu" "abc123"
        (fun tg st => (Except.ok tg, st)) (["ubuntu"] : Store)).2 :=
  ⟨by decide,
   c7_temp_image_cleanup true "ubuntu" "abc123"
     (fun tg st => (Except.ok tg, st)) ["ubuntu"] (by decide)⟩

/-- Claim C2 (confirmed): with `ignore_prefix` false, every search pattern
`remove` sends to the engine's reference filter starts with the universal
namespace string, and consequently every image passed to the engine's removal
command has a reference starting with that namespace string — images whose
references lie outside the reserved namespace are never deleted. -/
theorem c2_remove_namespace_safety (store : List DockerImage) (tags : List String) :
    (∀ t ∈ tags, startswith (removeSearch false t) universalTagPrefix = true) ∧
    ∀ img ∈ removedImages store tags false,
      startswith img.ref universalTagPrefix = true := by
  refine ⟨fun t _ => removeSearch_startswith t, fun img hmem => ?_⟩
  rw [removedImages] at hmem
  obtain ⟨t, -, hin⟩ := List.mem_flatMap.mp hmem
  rw [filterReference] at hin
  exact globMatch_namespace _ _ (removeSearch_startswith t)
    (List.mem_filter.mp hin).2

/-- Witness for C2: a store with one namespaced and one foreign image; the
wildcard pattern foo-* removes the namespaced image, whose reference starts
with the namespace string. -/
theorem c2_witness :
    (⟨"sha256:0001", "dcli-foo-init"⟩ : DockerImage) ∈
      removedImages
        [⟨"sha256:0001", "dcli-foo-init"⟩, ⟨"sha256:0002", "debian"⟩]
        ["foo-*"] false ∧
    startswith (DockerImage.ref ⟨"sha256:0001", "dcli-foo-init"⟩)
      universalTagPrefix = true :=
  ⟨by decide,
   (c2_remove_namespace_safety
      [⟨"sha256:0001", "dcli-foo-init"⟩, ⟨"sha256:0002", "debian"⟩]
      ["foo-*"]).2 ⟨"sha256:0001", "dcli-foo-init"⟩ (by decide)⟩

/-- Claim C9 counterexample: calling `setup_cuda_runtime` on the probing path
with the malformed version "11" launches a build subprocess (the throwaway
probe image) before validation raises `ValueError`, so the claimed
"no build subprocess before validation" fails. -/
theorem c9_counterexample :
    setupCudaRuntime engTrue imgAptWget cudaRunBody₀ "r" "ubuntu" "t" false "11"
        "ubuntu2004" none none "x86_64" =
      (Except.error (PyErr.valueError "Malformed CUDA version: 11"),
       ["dcli-temp-r"]) ∧
    (["dcli-temp-r"] : List String) ≠ [] :=
  ⟨rfl, by decide⟩

/-- Claim C9 (corrected): a malformed CUDA version string makes
`setup_cuda_runtime` raise `ValueError` echoing the offending string and the
stage image itself is never built; when both capability parameters are
supplied no build subprocess precedes the validation, but on the probing path
the throwaway probe build subprocess is launched before validation. -/
theorem c9_malformed_cuda_version (eng : String → String → Bool) (probeImg : Img)
    (cudaRunBody : PackageManager → URLReader → Nat → Nat → String → String → String)
    (rand base tag : String) (noCache : Bool) (v repo arch : String)
    (pm pm₂ : PackageManager) (url url₂ : URLReader) (ick : String)
    (hv : parseCudaInfo v = none)
    (hprobe : imageCommandCheck probeImg false = Except.ok (pm₂, url₂, ick))
    (heng : eng (universalTagPrefix ++ "-temp-" ++ rand) ("FROM " ++ base) = true) :
    setupCudaRuntime eng probeImg cudaRunBody rand base tag noCache v repo
        (some pm) (some url) arch =
      (Except.error (PyErr.valueError ("Malformed CUDA version: " ++ v)), []) ∧
    setupCudaRuntime eng probeImg cudaRunBody rand base tag noCache v repo
        none none arch =
      (Except.error (PyErr.valueError ("Malformed CUDA version: " ++ v)),
       [universalTagPrefix ++ "-temp-" ++ rand]) := by
  constructor
  · simp [setupCudaRuntime, hv]
  · simp [setupCudaRuntime, tempProbe, heng, hprobe, hv]

/-- Witness for C9: the corrected statement evaluated at concrete inputs. -/
theorem c9_witness :
    parseCudaInfo "11" = none ∧
    setupCudaRuntime engTrue imgAptWget cudaRunBody₀ "s" "ubuntu" "t" false "11"
        "ubuntu2004" (some PackageManager.aptGet) (some URLReader.wget) "x86_64" =
      (Except.error (PyErr.valueError ("Malformed CUDA version: " ++ "11")), []) :=
  ⟨by decide,
   (c9_malformed_cuda_version engTrue imgAptWget cudaRunBody₀ "s" "ubuntu" "t"
      false "11" "ubuntu2004" "x86_64" PackageManager.aptGet PackageManager.aptGet
      URLReader.wget URLReader.wget "" (by decide) rfl rfl).1⟩

/-- Claim C3 (confirmed): with a CUDA version that parses as major.minor, an
engine that accepts every build, and a base whose probe succeeds (in the
claimed scenario it detects apt-get and wget), `setup_all` returns exactly
five images whose tags are, in order, init, cuda-major-minor-runtime,
mamba-runtime, cuda-major-minor-dev and mamba-dev under the reserved
namespace string, and each stage's Dockerfile is derived `FROM` the previous
stage's recorded tag — the first stage from the caller-supplied base, the
conda runtime stage carrying the micromamba multi-stage header before its
`FROM`. -/
theorem c3_setup_all_chain (eng : String → String → Bool) (probeImg : Img)
    (cudaRunBody : PackageManager → URLReader → Nat → Nat → String → String → String)
    (cudaDevBody : PackageManager → URLReader → Nat → Nat → String)
    (mambaRunBody mambaDevBody : String)
    (rand₁ rand₂ rand₃ base tag : String) (noCache : Bool)
    (cudaVersion cudaRepo : String) (cudaMajor cudaMinor : Nat)
    (pm : PackageManager) (url : URLReader) (ick : String)
    (hver : parseCudaInfo cudaVersion = some (cudaMajor, cudaMinor))
    (heng : ∀ t d, eng t d = true)
    (hprobe : imageCommandCheck probeImg true = Except.ok (pm, url, ick)) :
    (setupAll eng probeImg cudaRunBody cudaDevBody mambaRunBody mambaDevBody
        rand₁ rand₂ rand₃ base tag noCache cudaVersion cudaRepo).1 =
      Except.ok [
        (universalTagPrefix ++ "-" ++ tag ++ "-init",
         "FROM " ++ base ++ "\n\n" ++ ick ++ "\n" ++ setupInitBlock),
        (universalTagPrefix ++ "-" ++ tag ++ "-cuda-" ++ toString cudaMajor ++ "-" ++
           toString cudaMinor ++ "-runtime",
         "FROM " ++ (universalTagPrefix ++ "-" ++ tag ++ "-init") ++ "\n\n" ++ "" ++
           "\n\n" ++ cudaRunBody pm url cudaMajor cudaMinor cudaRepo "x86_64"),
        (universalTagPrefix ++ "-" ++ tag ++ "-mamba-runtime",
         mambaInstallStageHeader ++ "\n\nFROM " ++
           (universalTagPrefix ++ "-" ++ tag ++ "-cuda-" ++ toString cudaMajor ++ "-" ++
            toString cudaMinor ++ "-runtime") ++ "\n\n" ++ mambaRunBody),
        (universalTagPrefix ++ "-" ++ tag ++ "-cuda-" ++ toString cudaMajor ++ "-" ++
           toString cudaMinor ++ "-dev",
         "FROM " ++ (universalTagPrefix ++ "-" ++ tag ++ "-mamba-runtime") ++ "\n\n" ++
           "" ++ "\n\n" ++ cudaDevBody pm url cudaMajor cudaMinor),
        (universalTagPrefix ++ "-" ++ tag ++ "-mamba-dev",
         "FROM " ++ (universalTagPrefix ++ "-" ++ tag ++ "-cuda-" ++ toString cudaMajor ++
           "-" ++ toString cudaMinor ++ "-dev") ++ "\n\n" ++ mambaDevBody)] := by
  have hp₁ : prefixTag (universalTagPrefix ++ "-" ++ tag ++ "-init") =
      universalTagPrefix ++ "-" ++ tag ++ "-init" :=
    prefixTag_of_startswith _
      (startswith_append_left _ _ _ (startswith_dcli_dash tag))
  have hp₂ : prefixTag (universalTagPrefix ++ "-" ++ tag ++ "-cuda-" ++
        toString cudaMajor ++ "-" ++ toString cudaMinor ++ "-runtime") =
      universalTagPrefix ++ "-" ++ tag ++ "-cuda-" ++ toString cudaMajor ++ "-" ++
        toString cudaMinor ++ "-runtime" :=
    prefixTag_of_startswith _
      (startswith_append_left _ _ _ (startswith_append_left _ _ _
        (startswith_append_left _ _ _ (startswith_append_left _ _ _
          (startswith_append_left _ _ _ (startswith_dcli_dash tag))))))
  have hp₃ : prefixTag (universalTagPrefix ++ "-" ++ tag ++ "-mamba-runtime") =
      universalTagPrefix ++ "-" ++ tag ++ "-mamba-runtime" :=
    prefixTag_of_startswith _
      (startswith_append_left _ _ _ (startswith_dcli_dash tag))
  have hp₄ : prefixTag (universalTagPrefix ++ "-" ++ tag ++ "-cuda-" ++
        toString cudaMajor ++ "-" ++ toString cudaMinor ++ "-dev") =
      universalTagPrefix ++ "-" ++ tag ++ "-cuda-" ++ toString cudaMajor ++ "-" ++
        toString cudaMinor ++ "-dev" :=
    prefixTag_of_startswith _
      (startswith_append_left _ _ _ (startswith_append_left _ _ _
        (startswith_append_left _ _ _ (startswith_append_left _ _ _
          (startswith_append_left _ _ _ (startswith_dcli_dash tag))))))
  have hp₅ : prefixTag (universalTagPrefix ++ "-" ++ tag ++ "-mamba-dev") =
      universalTagPrefix ++ "-" ++ tag ++ "-mamba-dev" :=
    prefixTag_of_startswith _
      (startswith_append_left _ _ _ (startswith_dcli_dash tag))
  simp only [setupAll, setupInit, setupCudaRuntime, setupCudaDev, setupCondaRuntime,
    setupCondaDev, tempProbe, buildImage, hver, heng, hprobe, hp₁, hp₂, hp₃, hp₄, hp₅,
    if_true]

/-- Witness for C3: the five-stage chain evaluated at the end-to-end scenario
— base ubuntu, CUDA 11.4, a probe reporting apt-get and wget present. -/
theorem c3_witness :
    parseCudaInfo "11.4" = some (11, 4) ∧
    imageCommandCheck imgAptWget true =
      Except.ok (PackageManager.aptGet, URLReader.wget,
        "RUN apt-get -y update && apt-get clean all\n") ∧
    (setupAll engTrue imgAptWget cudaRunBody₀ cudaDevBody₀ "RUN mamba-install"
        "RUN mamba-reqs" "r1" "r2" "r3" "ubuntu" "x" false "11.4" "ubuntu2004").1 =
      Except.ok [
        (universalTagPrefix ++ "-" ++ "x" ++ "-init",
         "FROM " ++ "ubuntu" ++ "\n\n" ++ "RUN apt-get -y update && apt-get clean all\n" ++
           "\n" ++ setupInitBlock),
        (universalTagPrefix ++ "-" ++ "x" ++ "-cuda-" ++ toString (11 : Nat) ++ "-" ++
           toString (4 : Nat) ++ "-runtime",
         "FROM " ++ (universalTagPrefix ++ "-" ++ "x" ++ "-init") ++ "\n\n" ++ "" ++
           "\n\n" ++ cudaRunBody₀ PackageManager.aptGet URLReader.wget 11 4
             "ubuntu2004" "x86_64"),
        (universalTagPrefix ++ "-" ++ "x" ++ "-mamba-runtime",
         mambaInstallStageHeader ++ "\n\nFROM " ++
           (universalTagPrefix ++ "-" ++ "x" ++ "-cuda-" ++ toString (11 : Nat) ++ "-" ++
            toString (4 : Nat) ++ "-runtime") ++ "\n\n" ++ "RUN mamba-install"),
        (universalTagPrefix ++ "-" ++ "x" ++ "-cuda-" ++ toString (11 : Nat) ++ "-" ++
           toString (4 : Nat) ++ "-dev",
         "FROM " ++ (universalTagPrefix ++ "-" ++ "x" ++ "-mamba-runtime") ++ "\n\n" ++
           "" ++ "\n\n" ++ cudaDevBody₀ PackageManager.aptGet URLReader.wget 11 4),
        (universalTagPrefix ++ "-" ++ "x" ++ "-mamba-dev",
         "FROM " ++ (universalTagPrefix ++ "-" ++ "x" ++ "-cuda-" ++ toString (11 : Nat) ++
           "-" ++ toString (4 : Nat) ++ "-dev") ++ "\n\n" ++ "RUN mamba-reqs")] :=
  ⟨by decide, by decide,
   c3_setup_all_chain engTrue imgAptWget cudaRunBody₀ cudaDevBody₀ "RUN mamba-install"
     "RUN mamba-reqs" "r1" "r2" "r3" "ubuntu" "x" false "11.4" "ubuntu2004" 11 4
     PackageManager.aptGet URLReader.wget
     "RUN apt-get -y update && apt-get clean all\n"
     (by decide) (fun _ _ => rfl) (by decide)⟩

end Wigwam
